import Mathlib

/-!
BallMaster: verification of the kick-detection state machine and leaderboard

Shallow embedding of the algorithmic core of the BallMaster_Py repository:

* `top_results.py` — `TopResultsManager` (score computation, bounded ranked
  insertion, persistence log) and the `/results` endpoint guard from
  `api_server.py`;
* `utils.py` — `BallKickAnalyzer` (per-frame kick detection state machine,
  the analysis loop, and the juggling-series segmentation fold).

Python floats are modelled by `ℚ` (all constants of the program are exact
decimal fractions); comparisons of euclidean distances are modelled by the
equivalent comparisons of squared distances, which keeps every definition
rational and executable.  Python ints are modelled by `ℤ` (counters that are
only ever incremented use `ℕ`).
-/

namespace BallMaster

/-! ## Leaderboard data model (`top_results.py`) -/

/-- The `TopResult` dataclass from `top_results.py`. -/
structure TopResult where
  video_name : String
  total_kicks : ℤ
  total_series : ℤ
  best_series_kicks : ℤ
  best_series_duration : ℚ
  processing_time : ℚ
  timestamp : String
  score : ℚ
  deriving DecidableEq, Repr

/-- State of a `TopResultsManager`: the in-memory list, the bound, and a log of
the snapshots written by `_save_results` (one entry per persistence write). -/
structure TopState where
  results : List TopResult
  max_results : ℕ
  saves : List (List TopResult)
  deriving DecidableEq, Repr

/-- Python's `round` (round half to even), on exact rationals. -/
def pyRound (q : ℚ) : ℤ :=
  let n := ⌊q⌋
  if q - n < 1/2 then n
  else if q - n > 1/2 then n + 1
  else if n % 2 = 0 then n else n + 1

/-- Python's `round(x, 2)`: round to two decimal places, half to even. -/
def round2 (q : ℚ) : ℚ := (pyRound (q * 100) : ℚ) / 100

/-- Method `TopResultsManager._calculate_score` (top_results.py lines 80-89).
`total_series` is accepted but unused, exactly as in the source. -/
def _calculate_score (total_kicks _total_series best_series_kicks : ℤ)
    (best_series_duration processing_time : ℚ) : ℚ :=
  let base_score : ℚ := (total_kicks : ℚ) * 10
  let series_bonus : ℚ := (best_series_kicks : ℚ) * 20 + best_series_duration * 5
  let efficiency_bonus : ℚ := ((total_kicks : ℚ) / max processing_time 1) * 50
  let time_penalty : ℚ := processing_time * 0.1
  round2 (base_score + series_bonus + efficiency_bonus - time_penalty)

/-- The scoring formula exactly as the spec states it (§4.4), for comparison
with the source's `_calculate_score`. -/
def score_spec (total_kicks best_series_kicks : ℤ)
    (best_series_duration processing_time : ℚ) : ℚ :=
  round2 ((total_kicks : ℚ) * 10 + (best_series_kicks : ℚ) * 20 +
    best_series_duration * 5 +
    ((total_kicks : ℚ) / max processing_time 1) * 50 - processing_time * 0.1)

/-- The comparison Python's `results.sort(key=lambda x: x.score, reverse=True)`
sorts by: descending score.  `scoreGE a b` holds when `a` may precede `b`. -/
def scoreGE (a b : TopResult) : Prop := b.score ≤ a.score

instance : DecidableRel scoreGE :=
  fun a b => inferInstanceAs (Decidable (b.score ≤ a.score))

/-- Method `TopResultsManager._sort_results` (top_results.py lines 76-78): Python's
`list.sort` is a stable sort; any stable sort computes the same list, so it is
modelled by stable insertion sort on the descending-score order. -/
def _sort_results (m : TopState) : TopState :=
  { m with results := m.results.insertionSort scoreGE }

/-- Method `TopResultsManager._save_results` (top_results.py lines 60-74): the write
is modelled by appending the current list to the persistence log. -/
def _save_results (m : TopState) : TopState :=
  { m with saves := m.saves ++ [m.results] }

/-- Method `TopResultsManager.add_result` (top_results.py lines 91-123).
`now` stands for `datetime.now().isoformat()`.  The source reads
`self.results[-1]` when the list is full; on an empty list that raises
`IndexError`, modelled by `none` (reachable only when `max_results = 0`). -/
def add_result (m : TopState) (now video_name : String)
    (total_kicks total_series best_series_kicks : ℤ)
    (best_series_duration processing_time : ℚ) : Option (TopState × Bool) :=
  let score := _calculate_score total_kicks total_series best_series_kicks
    best_series_duration processing_time
  let new_result : TopResult :=
    { video_name, total_kicks, total_series, best_series_kicks,
      best_series_duration, processing_time, timestamp := now, score }
  if m.results.length < m.max_results then
    some (_save_results (_sort_results { m with results := m.results ++ [new_result] }), true)
  else
    match m.results.getLast? with
    | none => none
    | some last =>
      if last.score < score then
        some (_save_results (_sort_results { m with results := m.results.dropLast ++ [new_result] }), true)
      else
        some (m, false)

/-- Method `TopResultsManager.get_top_results` (top_results.py lines 125-129).
`pySlice` below gives Python's `lst[:n]` semantics, including negative `n`. -/
def pySlice {α : Type} (xs : List α) (n : ℤ) : List α :=
  if 0 ≤ n then xs.take n.toNat else xs.take (xs.length - n.natAbs)

def get_top_results (m : TopState) (limit : Option ℤ) : List TopResult :=
  pySlice m.results (limit.getD (m.max_results : ℤ))

/-- Response of the `/results` endpoint, reduced to the two outcomes the
handler distinguishes. -/
inductive ApiResult where
  | error (msg : String) (code : ℕ)
  | ok (results : List TopResult)
  deriving DecidableEq, Repr

/-- Endpoint handler `get_results` (api_server.py lines 293-301).  The guard is
Python's `if limit and (limit < 1 or limit > 30)`: an absent limit is `None`
(falsy) and `limit = 0` is also falsy, so the range check is skipped for 0. -/
def get_results (m : TopState) (limit : Option ℤ) : ApiResult :=
  match limit with
  | some l =>
    if l ≠ 0 ∧ (l < 1 ∨ l > 30) then .error ("Лимит должен быть от 1 до 30") 400
    else .ok (get_top_results m (some l))
  | none => .ok (get_top_results m none)

/-- Leaderboard states reachable by the manager: the empty state the process
starts from (missing or unreadable storage file), followed by any sequence of
completed `add_result` calls. -/
inductive ReachableTop : TopState → Prop
  | init (maxr : ℕ) : ReachableTop ⟨[], maxr, []⟩
  | step {m m' : TopState} {b : Bool} (now video_name : String)
      (total_kicks total_series best_series_kicks : ℤ)
      (best_series_duration processing_time : ℚ) :
      ReachableTop m →
      add_result m now video_name total_kicks total_series best_series_kicks
        best_series_duration processing_time = some (m', b) →
      ReachableTop m'

/-- The leaderboard sortedness invariant: pairwise descending scores. -/
def SortedByScore (l : List TopResult) : Prop := l.Sorted scoreGE

/-! ## Kick detection (`utils.py`, class `BallKickAnalyzer`)

The analyzer's angle computation calls `math.atan2` and converts to degrees;
its exact values are irrational on almost all rational inputs, so every
definition takes the degree-valued angle function `atan2d` (with
`atan2d y x` standing for `math.degrees(math.atan2(y, x))`) as a parameter.
Theorems either hold for an arbitrary `atan2d`, or constrain it only at
inputs where the true value is exact (axis-aligned and diagonal vectors). -/

/-- The `BallKick` dataclass from `utils.py`. -/
structure BallKick where
  frame_number : ℤ
  timestamp : ℚ
  ball_position : ℚ × ℚ
  kick_type : String
  confidence : ℚ
  deriving DecidableEq, Repr

/-- The `JugglingSeries` dataclass from `utils.py`. -/
structure JugglingSeries where
  start_frame : ℤ
  end_frame : ℤ
  kicks_count : ℕ
  duration : ℚ
  deriving DecidableEq, Repr

/-- The mutable per-video state of `BallKickAnalyzer` that the detection path
reads or writes (utils.py lines 74-82). -/
structure DetectorState where
  ball_history : List (ℚ × ℚ)
  velocity_history : List (ℚ × ℚ)
  kicks : List BallKick
  current_series_kicks : ℕ
  in_juggling_series : Bool
  last_ball_position : Option (ℚ × ℚ)
  deriving DecidableEq, Repr

/-- Detection thresholds set in `BallKickAnalyzer.__init__` (utils.py 65-71,
81-83). -/
def kick_distance_threshold : ℚ := 400
def velocity_threshold : ℚ := 8
def min_kick_interval : ℤ := 8
def ground_threshold : ℚ := 0.85
def trajectory_change_threshold : ℚ := 25
def velocity_history_size : ℕ := 5
def min_confidence_threshold : ℚ := 0.6
def frame_skip : ℕ := 4
def ball_movement_threshold : ℚ := 10

/-- Squared euclidean distance.  The source compares
`scipy.spatial.distance.euclidean` values, which are square roots; comparing
the squares is equivalent and stays in `ℚ`. -/
def distSq (a b : ℚ × ℚ) : ℚ := (a.1 - b.1) ^ 2 + (a.2 - b.2) ^ 2

/-- The minimum over `feet_positions` of the squared distance to the ball
(utils.py 170-177); `none` models the initial `float('inf')` when no foot was
detected. -/
def min_distance_sq (ball_pos : ℚ × ℚ) : List (ℚ × ℚ) → Option ℚ
  | [] => none
  | f :: fs =>
    match min_distance_sq ball_pos fs with
    | none => some (distSq ball_pos f)
    | some d => some (min (distSq ball_pos f) d)

/-- Comparison `min_distance < self.kick_distance_threshold`, via squares
(`400 ^ 2 = 160000`); `False` when no foot was detected (`inf < 400`). -/
def near_feet (ball_pos : ℚ × ℚ) (feet_positions : List (ℚ × ℚ)) : Prop :=
  match min_distance_sq ball_pos feet_positions with
  | none => False
  | some d => d < kick_distance_threshold ^ 2

instance (b : ℚ × ℚ) (f : List (ℚ × ℚ)) : Decidable (near_feet b f) := by
  unfold near_feet; exact match min_distance_sq b f with
  | none => inferInstanceAs (Decidable False)
  | some d => inferInstanceAs (Decidable (_ < _))

/-- Method `BallKickAnalyzer.calculate_ball_velocity` (utils.py 125-137): difference
of the last two recorded ball positions, `(0, 0)` with fewer than two. -/
def calculate_ball_velocity (ball_history : List (ℚ × ℚ)) : ℚ × ℚ :=
  match ball_history.reverse with
  | pos2 :: pos1 :: _ => (pos2.1 - pos1.1, pos2.2 - pos1.2)
  | _ => (0, 0)

/-- Method `BallKickAnalyzer.calculate_trajectory_change` (utils.py 139-158): absolute
angular difference of the last two velocity vectors, wrapped to `[0°, 180°]`,
`0` with fewer than three velocity samples.  (The source also reads
`velocity_history[-3]` but never uses it.) -/
def calculate_trajectory_change (atan2d : ℚ → ℚ → ℚ)
    (velocity_history : List (ℚ × ℚ)) : ℚ :=
  if velocity_history.length < 3 then 0
  else
    match velocity_history.reverse with
    | v3 :: v2 :: _ =>
      let angle1 := atan2d v2.2 v2.1
      let angle2 := atan2d v3.2 v3.1
      let angle_change := |angle2 - angle1|
      if angle_change > 180 then 360 - angle_change else angle_change
    | _ => 0

/-- Method `BallKickAnalyzer.is_ball_near_ground` (utils.py 160-163). -/
def is_ball_near_ground (ball_pos : ℚ × ℚ) (frame_height : ℚ) : Prop :=
  ball_pos.2 ≥ frame_height * ground_threshold

instance (b : ℚ × ℚ) (h : ℚ) : Decidable (is_ball_near_ground b h) :=
  inferInstanceAs (Decidable (_ ≥ _))

/-- The debounce guard (utils.py 185-186):
`self.kicks and frame_number - self.kicks[-1].frame_number < min_kick_interval`. -/
def debounced (st : DetectorState) (frame_number : ℤ) : Prop :=
  match st.kicks.getLast? with
  | some last => frame_number - last.frame_number < min_kick_interval
  | none => False

instance (st : DetectorState) (n : ℤ) : Decidable (debounced st n) := by
  unfold debounced; exact match st.kicks.getLast? with
  | some _ => inferInstanceAs (Decidable (_ < _))
  | none => inferInstanceAs (Decidable False)

/-- The up-kick confidence computation (utils.py 204-219), as a function of
the already-computed trajectory change, vertical velocity and foot proximity. -/
def up_confidence (trajectory_change velocity_y : ℚ) (near : Bool) : ℚ :=
  let distance_bonus : ℚ := if near then 1.0 else 0.7
  let trajectory_score : ℚ := min 1.0 (trajectory_change / 45.0)
  let velocity_score : ℚ := min 1.0 (|velocity_y| / 20.0)
  let distance_score : ℚ := if near then 1.0 else 0.5
  (trajectory_score * 0.4 + velocity_score * 0.4 + distance_score * 0.2) * distance_bonus

/-- The ground-touch check closing `detect_kick` (utils.py 233-245). -/
def ground_check (st : DetectorState) (ball_pos : ℚ × ℚ) (frame_number : ℤ)
    (timestamp : ℚ) (frame_height : ℚ) : DetectorState × Option BallKick :=
  if is_ball_near_ground ball_pos frame_height ∧ st.in_juggling_series then
    ({ st with in_juggling_series := false },
     some { frame_number, timestamp, ball_position := ball_pos,
            kick_type := "ground", confidence := 0.9 })
  else (st, none)

/-- Method `BallKickAnalyzer.detect_kick` (utils.py 165-245).  Returns the updated
state together with the optional detected kick.  The outer condition
`(min_distance < threshold and closest_foot) or len(feet_positions) > 0`
is `near_feet ∨ feet_positions ≠ []` (a Python tuple is always truthy, and
`min_distance` is infinite exactly when no foot exists). -/
def detect_kick (atan2d : ℚ → ℚ → ℚ) (st : DetectorState) (ball_pos : ℚ × ℚ)
    (feet_positions : List (ℚ × ℚ)) (frame_number : ℤ) (timestamp : ℚ)
    (frame_height : ℚ) : DetectorState × Option BallKick :=
  if near_feet ball_pos feet_positions ∨ feet_positions ≠ [] then
    let velocity_y := (calculate_ball_velocity st.ball_history).2
    if debounced st frame_number then (st, none)
    else
      let trajectory_change := calculate_trajectory_change atan2d st.velocity_history
      if trajectory_change > trajectory_change_threshold ∧
          |velocity_y| > velocity_threshold ∧ velocity_y < 0 then
        let st1 := if !st.in_juggling_series then
          { st with in_juggling_series := true, current_series_kicks := 0 } else st
        let st2 := { st1 with current_series_kicks := st1.current_series_kicks + 1 }
        let confidence := up_confidence trajectory_change velocity_y
          (decide (near_feet ball_pos feet_positions))
        if confidence ≥ min_confidence_threshold then
          (st2, some { frame_number, timestamp, ball_position := ball_pos,
                       kick_type := "up", confidence })
        else (st2, none)
      else ground_check st ball_pos frame_number timestamp frame_height
  else ground_check st ball_pos frame_number timestamp frame_height

/-! ## The per-frame analysis loop (`BallKickAnalyzer.analyze_video`) -/

/-- Inputs of one processed frame: the coordinates the external detectors give
the core for that frame, plus its number and timestamp. -/
structure FrameInput where
  ball_pos : ℚ × ℚ
  feet_positions : List (ℚ × ℚ)
  frame_number : ℤ
  timestamp : ℚ
  deriving DecidableEq, Repr

/-- Python `lst.append(x)` followed by `if len(lst) > n: lst.pop(0)`
(utils.py 301-313): bounded history push. -/
def push_bounded {α : Type} (hist : List α) (x : α) (n : ℕ) : List α :=
  let h := hist ++ [x]
  if h.length > n then h.tail else h

/-- History maintenance of a processed frame (utils.py 300-313): record the
ball position, push it on the bounded position history, then push the freshly
computed velocity on the bounded velocity history. -/
def update_histories (st : DetectorState) (ball_pos : ℚ × ℚ) : DetectorState :=
  let bh := push_bounded st.ball_history ball_pos 10
  let vh := push_bounded st.velocity_history (calculate_ball_velocity bh) velocity_history_size
  { st with last_ball_position := some ball_pos, ball_history := bh,
            velocity_history := vh }

/-- The body of `analyze_video`'s loop for a frame whose ball detection
succeeded and passed the skip gates (utils.py 300-322): update the histories,
then — once at least 3 velocity samples exist — run `detect_kick` and append
any detected kick to `self.kicks`. -/
def process_ball_frame (atan2d : ℚ → ℚ → ℚ) (frame_height : ℚ)
    (st : DetectorState) (inp : FrameInput) : DetectorState × Option BallKick :=
  let sth := update_histories st inp.ball_pos
  if sth.velocity_history.length ≥ 3 then
    let r := detect_kick atan2d sth inp.ball_pos inp.feet_positions
      inp.frame_number inp.timestamp frame_height
    match r.2 with
    | some kick => ({ r.1 with kicks := r.1.kicks ++ [kick] }, some kick)
    | none => (r.1, none)
  else (sth, none)

/-- A detector run: the detector state after feeding `analyze_video`'s loop a
sequence of processed frames, starting from freshly reset histories
(utils.py 263-268; `last_ball_position` is not among the reset fields). -/
def initDetectorState : DetectorState :=
  { ball_history := [], velocity_history := [], kicks := [],
    current_series_kicks := 0, in_juggling_series := false,
    last_ball_position := none }

def runDetector (atan2d : ℚ → ℚ → ℚ) (frame_height : ℚ)
    (inps : List FrameInput) : DetectorState :=
  inps.foldl (fun st inp => (process_ball_frame atan2d frame_height st inp).1)
    initDetectorState

/-- Did this `detect_kick` call take the up-kick branch (outer feet condition,
debounce elapsed, and the motion test — trajectory change, speed, upward sign —
all satisfied)?  Evaluated, like `detect_kick` inside `process_ball_frame`, on
the history-updated state, and only when 3 velocity samples exist. -/
def up_branch_taken (atan2d : ℚ → ℚ → ℚ) (st : DetectorState)
    (inp : FrameInput) : Bool :=
  let sth := update_histories st inp.ball_pos
  decide (3 ≤ sth.velocity_history.length ∧
    (near_feet inp.ball_pos inp.feet_positions ∨ inp.feet_positions ≠ []) ∧
    ¬ debounced sth inp.frame_number ∧
    (calculate_trajectory_change atan2d sth.velocity_history >
        trajectory_change_threshold ∧
      |(calculate_ball_velocity sth.ball_history).2| > velocity_threshold ∧
      (calculate_ball_velocity sth.ball_history).2 < 0))

/-- The observable trace of a run: for every processed frame, whether the
up-kick branch was taken and which kick (if any) was emitted. -/
def runTrace (atan2d : ℚ → ℚ → ℚ) (frame_height : ℚ) (st : DetectorState) :
    List FrameInput → List (Bool × Option BallKick)
  | [] => []
  | inp :: rest =>
    let r := process_ball_frame atan2d frame_height st inp
    (up_branch_taken atan2d st inp, r.2) :: runTrace atan2d frame_height r.1 rest

/-- Does a trace step emit a Ground event? -/
def emitsGround (s : Bool × Option BallKick) : Prop :=
  ∃ k, s.2 = some k ∧ k.kick_type = "ground"

instance (s : Bool × Option BallKick) : Decidable (emitsGround s) := by
  unfold emitsGround; exact match s.2 with
  | some k => if h : k.kick_type = "ground" then .isTrue ⟨k, rfl, h⟩ else
      .isFalse (by simp_all)
  | none => .isFalse (by simp)

/-- Predicate `groundSound b trace` says: walking the trace while tracking in `b`
whether some call has taken the up-kick branch since the last emitted Ground
event (or the start), every emitted Ground event finds `b = true`. -/
def groundSound : Bool → List (Bool × Option BallKick) → Prop
  | _, [] => True
  | b, s :: rest =>
    (emitsGround s → b = true) ∧
    groundSound (if decide (emitsGround s) then false else b || s.1) rest

/-- Full `analyze_video` frame loop (utils.py 270-329), for claims about the
skip gates.  A `Frame` carries what the external collaborators report for it:
the ball detection (if any) and the detected feet. -/
structure Frame where
  ball : Option (ℚ × ℚ)
  feet : List (ℚ × ℚ)
  deriving DecidableEq, Repr

/-- One iteration of the `analyze_video` loop at frame number `n`
(utils.py 277-298 gates, then the processed-frame body).  Movement below
`ball_movement_threshold` (10 px) is compared via squares (`10 ^ 2 = 100`). -/
def analyze_frame_step (atan2d : ℚ → ℚ → ℚ) (frame_height fps : ℚ)
    (st : DetectorState) (n : ℕ) (f : Frame) : DetectorState :=
  if n % frame_skip ≠ 0 then st
  else
    match f.ball with
    | none => st
    | some ball_pos =>
      match st.last_ball_position with
      | some lp =>
        if distSq ball_pos lp < ball_movement_threshold ^ 2 then st
        else (process_ball_frame atan2d frame_height st
          ⟨ball_pos, f.feet, (n : ℤ), (n : ℚ) / fps⟩).1
      | none => (process_ball_frame atan2d frame_height st
          ⟨ball_pos, f.feet, (n : ℤ), (n : ℚ) / fps⟩).1

/-- Method `BallKickAnalyzer.analyze_video` (utils.py 247-361), restricted to its
effect on the detector state: reset the five per-run fields (utils.py 263-268
— `last_ball_position` is not one of them), then run the frame loop. -/
def analyze_video (atan2d : ℚ → ℚ → ℚ) (st0 : DetectorState)
    (frames : List Frame) (frame_height fps : ℚ) : DetectorState :=
  let st := { st0 with ball_history := [], velocity_history := [], kicks := [],
                       current_series_kicks := 0, in_juggling_series := false }
  (frames.enum).foldl
    (fun s nf => analyze_frame_step atan2d frame_height fps s nf.1 nf.2) st

/-! ## Series segmentation (`BallKickAnalyzer._analyze_juggling_series`) -/

/-- Loop state of `_analyze_juggling_series` (utils.py 363-389). -/
structure SegState where
  series : List JugglingSeries
  current_series_start : Option ℤ
  current_kicks : ℕ
  current_series_start_timestamp : Option ℚ
  deriving DecidableEq, Repr

/-- One iteration of the `for kick in self.kicks` loop (utils.py 370-387). -/
def seriesStep (st : SegState) (kick : BallKick) : SegState :=
  if kick.kick_type = "up" then
    match st.current_series_start with
    | none =>
      { st with current_series_start := some kick.frame_number,
                current_series_start_timestamp := some kick.timestamp,
                current_kicks := st.current_kicks + 1 }
    | some _ => { st with current_kicks := st.current_kicks + 1 }
  else if kick.kick_type = "ground" then
    match st.current_series_start, st.current_series_start_timestamp with
    | some s, some ts0 =>
      { series := st.series ++
          [{ start_frame := s, end_frame := kick.frame_number,
             kicks_count := st.current_kicks,
             duration := kick.timestamp - ts0 }],
        current_series_start := none, current_kicks := 0,
        current_series_start_timestamp := none }
    | some _, none => st
    | none, _ => st
  else st

/-- Method `BallKickAnalyzer._analyze_juggling_series` (utils.py 363-389): fold the
loop over the kick list; whatever is still open at the end is discarded. -/
def _analyze_juggling_series (kicks : List BallKick) : List JugglingSeries :=
  (kicks.foldl seriesStep ⟨[], none, 0, none⟩).series

/-! ## Concrete angle oracles and runs

Exact values of `math.degrees(math.atan2(y, x))` on the eight compass
directions (and `(0, 0) ↦ 0`, matching `math.atan2(0, 0) = 0`).  Every
concrete run below queries the angle function only at such vectors, where the
listed value is the true one. -/

def atan2dW (y x : ℚ) : ℚ :=
  if 0 < x ∧ y = 0 then 0
  else if x = 0 ∧ 0 < y then 90
  else if x < 0 ∧ y = 0 then 180
  else if x = 0 ∧ y < 0 then -90
  else if 0 < x ∧ y = x then 45
  else if x < 0 ∧ y = -x then 135
  else if x < 0 ∧ y = x then -135
  else if 0 < x ∧ y = -x then -45
  else 0

/-- A run on which a Ground event is emitted although no Up event was ever
emitted: frame 12 passes the motion test (trajectory change 45°, velocity
(9, -9)) but its only foot is 500 px away, so the confidence
`(0.4 + 0.18 + 0.1) * 0.7 = 0.476` stays below 0.6 and no Up event is
emitted — yet `in_juggling_series` is already set.  Frame 16 then finds the
ball at 90% of the 1000 px frame height with the series flag set and emits a
Ground event. -/
def c1trace : List FrameInput :=
  [ ⟨(100, 100), [], 0, 0⟩,
    ⟨(120, 100), [], 4, 4⟩,
    ⟨(140, 100), [], 8, 8⟩,
    ⟨(149, 91), [(649, 91)], 12, 12⟩,
    ⟨(140, 900), [], 16, 16⟩ ]

/-- A run emitting an Up event at frame 12 (trajectory change 90°, velocity
(0, -20), foot 10 px away, confidence 1.0) and a Ground event at frame 16 —
only 4 < 8 frames later: the debounce guard sits inside the feet-proximity
branch, and frame 16 has no detected feet. -/
def c2trace : List FrameInput :=
  [ ⟨(100, 100), [], 0, 0⟩,
    ⟨(120, 100), [], 4, 4⟩,
    ⟨(140, 100), [], 8, 8⟩,
    ⟨(140, 80), [(150, 80)], 12, 12⟩,
    ⟨(140, 900), [], 16, 16⟩ ]

/-- An angle oracle pinned so that the velocity history of `stC3` yields
trajectory change exactly 30°, the value the claim fixes as input (30° is not
an exact `atan2` angle difference of rational vectors, so the oracle rather
than the vectors carries the value). -/
def atan2dC3 (y x : ℚ) : ℚ := if y = -10 ∧ x = 1 then 30 else 0

/-- A detector state whose computed trajectory change under `atan2dC3` is 30°
and whose ball velocity is `(1, -10)`. -/
def stC3 : DetectorState :=
  { ball_history := [(0, 10), (1, 0)],
    velocity_history := [(0, 0), (1, 0), (1, -10)],
    kicks := [], current_series_kicks := 0, in_juggling_series := false,
    last_ball_position := some (1, 0) }

end BallMaster

namespace BallMaster

/-! # Theorems -/

/-! ## C7: the scoring formula -/

/-- C7 (confirmed): for every input tuple the score computed by
`_calculate_score` equals the spec's formula
`round(total_kicks*10 + best_series_kicks*20 + best_series_duration*5 +
(total_kicks / max(processing_time, 1))*50 - processing_time*0.1, 2)`; it is a
pure function of its five arguments, so identical inputs always yield
identical scores regardless of call order or repetition. -/
theorem calculate_score_eq_spec_formula
    (total_kicks total_series best_series_kicks : ℤ)
    (best_series_duration processing_time : ℚ) :
    _calculate_score total_kicks total_series best_series_kicks
      best_series_duration processing_time =
    score_spec total_kicks best_series_kicks best_series_duration
      processing_time := by
  unfold _calculate_score score_spec
  ring_nf

/-! ## C4: the `/results` limit guard -/

/-- C4 (code_bug): the endpoint guard `if limit and (limit < 1 or limit > 30)`
never fires for `limit = 0` because `0` is falsy in Python, so
`get_results` answers `limit = 0` with a success response carrying an empty
list instead of the `InvalidLimit` error; `limit = 31` is rejected as the
claim states. -/
theorem limit_zero_slips_through_guard (m : TopState) :
    get_results m (some 0) = ApiResult.ok [] ∧
    get_results m (some 31) = ApiResult.error ("Лимит должен быть от 1 до 30") 400 := by
  constructor
  · simp [get_results, get_top_results, pySlice]
  · simp [get_results]

/-! ## C8: the series segmentation fold -/

/-- All-up suffixes never touch the accumulated series list. -/
theorem foldl_seriesStep_ups (ups : List BallKick)
    (h : ∀ k ∈ ups, k.kick_type = "up") (st : SegState) :
    (ups.foldl seriesStep st).series = st.series := by
  induction ups generalizing st with
  | nil => rfl
  | cons k rest ih =>
    have hk := h k (List.mem_cons_self k rest)
    have hrest : ∀ k' ∈ rest, k'.kick_type = "up" := fun k' hk' =>
      h k' (List.mem_cons_of_mem k hk')
    rw [List.foldl_cons, ih hrest]
    unfold seriesStep
    rw [if_pos hk]
    cases st.current_series_start <;> rfl

/-- C8 (confirmed): the segmenter fold behaves as specified on each event —
an Up with no open series records the start frame and timestamp, every Up
increments the open count, a Ground with an open series emits exactly
`Series{start, end = current frame, kick_count = open count,
duration = current timestamp - open start timestamp}` and resets the open
state, a Ground with no open series is a no-op, and a trailing run of Up
events never closed by a Ground produces no series. -/
theorem series_fold_spec :
    (∀ (st : SegState) (k : BallKick), k.kick_type = "up" →
      st.current_series_start = none →
      seriesStep st k =
        { st with current_series_start := some k.frame_number,
                  current_series_start_timestamp := some k.timestamp,
                  current_kicks := st.current_kicks + 1 }) ∧
    (∀ (st : SegState) (k : BallKick) (s0 : ℤ), k.kick_type = "up" →
      st.current_series_start = some s0 →
      seriesStep st k = { st with current_kicks := st.current_kicks + 1 }) ∧
    (∀ (st : SegState) (k : BallKick) (s0 : ℤ) (t0 : ℚ),
      k.kick_type = "ground" →
      st.current_series_start = some s0 →
      st.current_series_start_timestamp = some t0 →
      seriesStep st k =
        ⟨st.series ++ [⟨s0, k.frame_number, st.current_kicks, k.timestamp - t0⟩],
         none, 0, none⟩) ∧
    (∀ (st : SegState) (k : BallKick), k.kick_type = "ground" →
      st.current_series_start = none → seriesStep st k = st) ∧
    (∀ (ks ups : List BallKick), (∀ k ∈ ups, k.kick_type = "up") →
      _analyze_juggling_series (ks ++ ups) = _analyze_juggling_series ks) := by
  refine ⟨?_, ?_, ?_, ?_, ?_⟩
  · intro st k hk hs
    unfold seriesStep
    rw [if_pos hk, hs]
  · intro st k s0 hk hs
    unfold seriesStep
    rw [if_pos hk, hs]
  · intro st k s0 t0 hk hs ht
    unfold seriesStep
    rw [if_neg (by rw [hk]; decide), if_pos hk, hs, ht]
  · intro st k hk hs
    unfold seriesStep
    rw [if_neg (by rw [hk]; decide), if_pos hk, hs]
  · intro ks ups h
    unfold _analyze_juggling_series
    rw [List.foldl_append, foldl_seriesStep_ups ups h]

/-- Witness for C8 at concrete inputs: each clause of `series_fold_spec`
evaluated on explicit states and kicks. -/
theorem series_fold_spec_witness :
    seriesStep ⟨[], none, 0, none⟩ ⟨3, 1, (0, 0), "up", 1⟩ =
      ⟨[], some 3, 1, some 1⟩ ∧
    seriesStep ⟨[], some 3, 1, some 1⟩ ⟨5, 2, (0, 0), "up", 1⟩ =
      ⟨[], some 3, 2, some 1⟩ ∧
    seriesStep ⟨[], some 3, 2, some 1⟩ ⟨9, 4, (0, 0), "ground", 1⟩ =
      ⟨[⟨3, 9, 2, 3⟩], none, 0, none⟩ ∧
    seriesStep ⟨[⟨3, 9, 2, 3⟩], none, 0, none⟩ ⟨11, 5, (0, 0), "ground", 1⟩ =
      ⟨[⟨3, 9, 2, 3⟩], none, 0, none⟩ ∧
    _analyze_juggling_series [⟨3, 1, (0, 0), "up", 1⟩] =
      _analyze_juggling_series [] := by
  refine ⟨?_, ?_, ?_, ?_, ?_⟩
  · exact series_fold_spec.1 ⟨[], none, 0, none⟩ ⟨3, 1, (0, 0), "up", 1⟩ rfl rfl
  · exact series_fold_spec.2.1 ⟨[], some 3, 1, some 1⟩ ⟨5, 2, (0, 0), "up", 1⟩ 3
      rfl rfl
  · have h := series_fold_spec.2.2.1 ⟨[], some 3, 2, some 1⟩
      ⟨9, 4, (0, 0), "ground", 1⟩ 3 1 rfl rfl rfl
    rw [h]
    norm_num
  · exact series_fold_spec.2.2.2.1 ⟨[⟨3, 9, 2, 3⟩], none, 0, none⟩
      ⟨11, 5, (0, 0), "ground", 1⟩ rfl rfl
  · exact series_fold_spec.2.2.2.2 [] [⟨3, 1, (0, 0), "up", 1⟩]
      (by intro k hk; simp at hk; rw [hk])

/-! ## Leaderboard helper lemmas -/

instance : IsTotal TopResult scoreGE := ⟨fun a b => le_total b.score a.score⟩

instance : IsTrans TopResult scoreGE :=
  ⟨fun _ _ _ h1 h2 => le_trans h2 h1⟩

/-- In a descending-sorted list, the last element has the minimum score. -/
theorem sorted_getLast_min {l : List TopResult} {last : TopResult}
    (hs : SortedByScore l) (hl : l.getLast? = some last) :
    ∀ r ∈ l, last.score ≤ r.score := by
  induction l with
  | nil => simp at hl
  | cons a t ih =>
    have hpair := (List.sorted_cons.mp hs).1
    have hst := (List.sorted_cons.mp hs).2
    intro r hr
    cases t with
    | nil =>
      simp at hl hr
      rw [hr, ← hl]
    | cons b t' =>
      rw [List.getLast?_cons_cons] at hl
      rcases List.mem_cons.mp hr with h | h
      · have hlast : last ∈ b :: t' := by
          obtain ⟨hne, hx⟩ :=
            List.mem_getLast?_eq_getLast (Option.mem_def.mpr hl)
          exact hx ▸ List.getLast_mem hne
        exact h ▸ hpair last hlast
      · exact ih hst hl r h

/-- Inserting an element whose score differs from `s` does not change the
score-`s` entries. -/
theorem filter_orderedInsert_ne (x : TopResult) (s : ℚ) (l : List TopResult)
    (hx : x.score ≠ s) :
    (l.orderedInsert scoreGE x).filter (fun r => decide (r.score = s)) =
      l.filter (fun r => decide (r.score = s)) := by
  induction l with
  | nil => simp [List.orderedInsert, List.filter, hx]
  | cons b t ih =>
    by_cases h : scoreGE x b
    · simp [List.orderedInsert, h, List.filter, hx]
    · simp only [List.orderedInsert, if_neg h, List.filter_cons]
      rw [ih]

/-- Inserting an element of score `s` into a descending-sorted list puts it
first among the score-`s` entries. -/
theorem filter_orderedInsert_eq (x : TopResult) (s : ℚ) (l : List TopResult)
    (hs : SortedByScore l) (hx : x.score = s) :
    (l.orderedInsert scoreGE x).filter (fun r => decide (r.score = s)) =
      x :: l.filter (fun r => decide (r.score = s)) := by
  induction l with
  | nil => simp [List.orderedInsert, List.filter, hx]
  | cons b t ih =>
    by_cases h : scoreGE x b
    · simp [List.orderedInsert, h, List.filter, hx]
    · have hb : b.score ≠ s := by
        intro hbs
        exact h (by unfold scoreGE; rw [hbs, hx])
      simp only [List.orderedInsert, if_neg h, List.filter_cons]
      rw [ih (List.sorted_cons.mp hs).2]
      simp [hb]

/-- Stability of the leaderboard sort: for every score value, the entries of
that score appear in the sorted output in their original order. -/
theorem filter_insertionSort_stable (l : List TopResult) (s : ℚ) :
    (l.insertionSort scoreGE).filter (fun r => decide (r.score = s)) =
      l.filter (fun r => decide (r.score = s)) := by
  induction l with
  | nil => rfl
  | cons a t ih =>
    rw [List.insertionSort]
    by_cases h : a.score = s
    · rw [filter_orderedInsert_eq a s _ (List.sorted_insertionSort scoreGE t) h,
        ih, List.filter_cons, if_pos (by simp [h])]
    · rw [filter_orderedInsert_ne a s _ h, ih, List.filter_cons,
        if_neg (by simp [h])]

/-! ## C5: ranked insertion -/

/-- C5 (confirmed): on a descending-sorted leaderboard, `add_result` appends
and accepts unconditionally while the leaderboard is below `max_size`
(re-sorting and writing once); when full, the last entry is the
lowest-scoring one and is replaced exactly when the new score is strictly
greater (again re-sorting and writing once); otherwise — including a score
equal to the current minimum — the call is rejected and the state, persistence
log included, is completely unchanged. -/
theorem add_result_insertion_spec (m : TopState) (now vn : String)
    (tk ts bsk : ℤ) (bsd pt : ℚ) (hs : SortedByScore m.results) :
    (m.results.length < m.max_results →
      add_result m now vn tk ts bsk bsd pt =
        some (_save_results (_sort_results
          { m with results := m.results ++
              [⟨vn, tk, ts, bsk, bsd, pt, now, _calculate_score tk ts bsk bsd pt⟩] }),
          true)) ∧
    (m.max_results ≤ m.results.length →
      ∀ last, m.results.getLast? = some last →
        (∀ r ∈ m.results, last.score ≤ r.score) ∧
        (last.score < _calculate_score tk ts bsk bsd pt →
          add_result m now vn tk ts bsk bsd pt =
            some (_save_results (_sort_results
              { m with results := m.results.dropLast ++
                  [⟨vn, tk, ts, bsk, bsd, pt, now, _calculate_score tk ts bsk bsd pt⟩] }),
              true)) ∧
        (_calculate_score tk ts bsk bsd pt ≤ last.score →
          add_result m now vn tk ts bsk bsd pt = some (m, false))) := by
  constructor
  · intro hlen
    unfold add_result
    rw [if_pos hlen]
  · intro hlen last hlast
    refine ⟨sorted_getLast_min hs hlast, ?_, ?_⟩
    · intro hgt
      unfold add_result
      rw [if_neg (by omega), hlast]
      dsimp only
      rw [if_pos hgt]
    · intro hle
      unfold add_result
      rw [if_neg (by omega), hlast]
      dsimp only
      rw [if_neg (by exact not_lt.mpr hle)]

/-- Witness for C5: the spec example — `max_size = 2`, leaderboard
`[{score 100}, {score 50}]`; an incoming result of score 50 (equal to the
minimum) is rejected with no state change. -/
theorem add_result_insertion_spec_witness :
    add_result
      ⟨[⟨("a"), 10, 0, 0, 0, 1, ("t1"), 100⟩, ⟨("b"), 5, 0, 0, 0, 1, ("t2"), 50⟩],
        2, []⟩ ("t3") ("c") 0 0 0 10 0 =
      some (⟨[⟨("a"), 10, 0, 0, 0, 1, ("t1"), 100⟩, ⟨("b"), 5, 0, 0, 0, 1, ("t2"), 50⟩],
        2, []⟩, false) := by
  have hscore : _calculate_score 0 0 0 10 0 = 50 := by
    unfold _calculate_score round2 pyRound
    norm_num
  have h := (add_result_insertion_spec
      ⟨[⟨("a"), 10, 0, 0, 0, 1, ("t1"), 100⟩, ⟨("b"), 5, 0, 0, 0, 1, ("t2"), 50⟩],
        2, []⟩ ("t3") ("c") 0 0 0 10 0
      (by norm_num [SortedByScore, List.sorted_cons, scoreGE])).2
    (by simp) ⟨("b"), 5, 0, 0, 0, 1, ("t2"), 50⟩ (by simp)
  exact h.2.2 (by rw [hscore])

/-! ## C6: the leaderboard invariant -/

/-- C6 (confirmed): every state reachable from process start by completed
`add_result` calls has at most `max_size` entries and is fully sorted by
descending score; moreover the sort is stable — for each score value, entries
of that score keep their pre-sort order. -/
theorem leaderboard_invariant :
    (∀ m : TopState, ReachableTop m →
      m.results.length ≤ m.max_results ∧ SortedByScore m.results) ∧
    (∀ (l : List TopResult) (s : ℚ),
      (l.insertionSort scoreGE).filter (fun r => decide (r.score = s)) =
        l.filter (fun r => decide (r.score = s))) := by
  constructor
  · intro m hm
    induction hm with
    | init maxr => exact ⟨by simp, by simp [SortedByScore]⟩
    | step now vn tk ts bsk bsd pt hm hadd ih =>
      rename_i m m' b
      unfold add_result at hadd
      by_cases hlen : m.results.length < m.max_results
      · rw [if_pos hlen] at hadd
        simp only [Option.some.injEq, Prod.mk.injEq] at hadd
        rw [← hadd.1]
        unfold _save_results _sort_results
        refine ⟨?_, List.sorted_insertionSort scoreGE _⟩
        simp only [List.length_insertionSort, List.length_append,
          List.length_cons, List.length_nil]
        omega
      · rw [if_neg hlen] at hadd
        cases hlast : m.results.getLast? with
        | none => rw [hlast] at hadd; exact absurd hadd (by simp)
        | some last =>
          rw [hlast] at hadd
          dsimp only at hadd
          by_cases hgt : last.score < _calculate_score tk ts bsk bsd pt
          · rw [if_pos hgt] at hadd
            simp only [Option.some.injEq, Prod.mk.injEq] at hadd
            rw [← hadd.1]
            unfold _save_results _sort_results
            refine ⟨?_, List.sorted_insertionSort scoreGE _⟩
            have hne : m.results ≠ [] := by
              intro h0
              rw [h0] at hlast
              simp at hlast
            have hlen' : m.results.dropLast.length = m.results.length - 1 :=
              List.length_dropLast m.results
            simp only [List.length_insertionSort, List.length_append,
              List.length_cons, List.length_nil, hlen']
            have : 1 ≤ m.results.length := List.length_pos.mpr hne
            omega
          · rw [if_neg hgt] at hadd
            simp only [Option.some.injEq, Prod.mk.injEq] at hadd
            rw [← hadd.1]
            exact ih
  · exact filter_insertionSort_stable

/-- Witness for C6: the invariant discharged at the concrete reachable state
`⟨[], 30, []⟩` (process start), plus stability on an explicit two-element
tie. -/
theorem leaderboard_invariant_witness :
    ((TopState.mk [] 30 []).results.length ≤ (TopState.mk [] 30 []).max_results ∧
      SortedByScore (TopState.mk [] 30 []).results) ∧
    (([⟨("a"), 0, 0, 0, 0, 0, ("t1"), 7⟩, ⟨("b"), 0, 0, 0, 0, 0, ("t2"), 7⟩].insertionSort
        scoreGE).filter (fun r => decide (r.score = 7)) =
      [⟨("a"), 0, 0, 0, 0, 0, ("t1"), 7⟩, ⟨("b"), 0, 0, 0, 0, 0, ("t2"), 7⟩].filter
        (fun r => decide (r.score = 7))) :=
  ⟨leaderboard_invariant.1 ⟨[], 30, []⟩ (ReachableTop.init 30),
   leaderboard_invariant.2
     [⟨("a"), 0, 0, 0, 0, 0, ("t1"), 7⟩, ⟨("b"), 0, 0, 0, 0, 0, ("t2"), 7⟩] 7⟩

/-! ## Detector step lemmas -/

/-- The detection call never rewrites the recorded kick list (the caller in
`analyze_video` appends the returned kick). -/
theorem detect_kick_kicks_eq (atan2d : ℚ → ℚ → ℚ) (st : DetectorState)
    (bp : ℚ × ℚ) (fp : List (ℚ × ℚ)) (fn : ℤ) (ts fh : ℚ) :
    (detect_kick atan2d st bp fp fn ts fh).1.kicks = st.kicks := by
  simp only [detect_kick, ground_check]
  split_ifs <;> rfl

/-- The detection call never rewrites the histories. -/
theorem detect_kick_histories_eq (atan2d : ℚ → ℚ → ℚ) (st : DetectorState)
    (bp : ℚ × ℚ) (fp : List (ℚ × ℚ)) (fn : ℤ) (ts fh : ℚ) :
    (detect_kick atan2d st bp fp fn ts fh).1.ball_history = st.ball_history ∧
    (detect_kick atan2d st bp fp fn ts fh).1.velocity_history = st.velocity_history ∧
    (detect_kick atan2d st bp fp fn ts fh).1.last_ball_position = st.last_ball_position := by
  simp only [detect_kick, ground_check]
  split_ifs <;> exact ⟨rfl, rfl, rfl⟩

/-- A Ground event is emitted only from a state whose `in_juggling_series`
flag is set, and the emitting call clears the flag. -/
theorem detect_kick_ground_needs_series (atan2d : ℚ → ℚ → ℚ)
    (st : DetectorState) (bp : ℚ × ℚ) (fp : List (ℚ × ℚ)) (fn : ℤ) (ts fh : ℚ)
    (k : BallKick) (hk : (detect_kick atan2d st bp fp fn ts fh).2 = some k)
    (hg : k.kick_type = "ground") :
    st.in_juggling_series = true ∧
    (detect_kick atan2d st bp fp fn ts fh).1.in_juggling_series = false := by
  simp only [detect_kick, ground_check] at hk ⊢
  split_ifs at hk ⊢ with h1 h2 h3 h4 h5 <;> simp_all
  · exact absurd (hk ▸ hg) (by simp)
  · exact absurd (hk ▸ hg) (by simp)

/-- The `in_juggling_series` flag becomes set only by a call that takes the
up-kick branch: feet visible, debounce elapsed, and the motion test
(trajectory change, speed, upward sign) satisfied. -/
theorem detect_kick_series_source (atan2d : ℚ → ℚ → ℚ) (st : DetectorState)
    (bp : ℚ × ℚ) (fp : List (ℚ × ℚ)) (fn : ℤ) (ts fh : ℚ)
    (h : (detect_kick atan2d st bp fp fn ts fh).1.in_juggling_series = true) :
    st.in_juggling_series = true ∨
    ((near_feet bp fp ∨ fp ≠ []) ∧ ¬ debounced st fn ∧
      (calculate_trajectory_change atan2d st.velocity_history >
          trajectory_change_threshold ∧
        |(calculate_ball_velocity st.ball_history).2| > velocity_threshold ∧
        (calculate_ball_velocity st.ball_history).2 < 0)) := by
  simp only [detect_kick, ground_check] at h
  split_ifs at h with h1 h2 h3 h4 h5 <;> simp_all

/-- With feet detected, any emitted kick — Up or Ground — carries the call's
frame number and passed the debounce guard. -/
theorem detect_kick_emission_debounced (atan2d : ℚ → ℚ → ℚ)
    (st : DetectorState) (bp : ℚ × ℚ) (fp : List (ℚ × ℚ)) (fn : ℤ) (ts fh : ℚ)
    (k : BallKick) (hfp : fp ≠ [])
    (hk : (detect_kick atan2d st bp fp fn ts fh).2 = some k) :
    ¬ debounced st fn ∧ k.frame_number = fn := by
  simp only [detect_kick, ground_check] at hk
  split_ifs at hk with h1 h2 h3 h4 h5 <;> simp_all
  all_goals rw [← hk]

/-! ## Frame step lemmas -/

/-- The frame step appends exactly the emitted kick (if any) to the record. -/
theorem process_frame_kicks (atan2d : ℚ → ℚ → ℚ) (fh : ℚ)
    (st : DetectorState) (inp : FrameInput) :
    ((process_ball_frame atan2d fh st inp).2 = none →
      (process_ball_frame atan2d fh st inp).1.kicks = st.kicks) ∧
    (∀ k, (process_ball_frame atan2d fh st inp).2 = some k →
      (process_ball_frame atan2d fh st inp).1.kicks = st.kicks ++ [k]) := by
  unfold process_ball_frame
  set sth := update_histories st inp.ball_pos with hsth
  have hkicks : sth.kicks = st.kicks := by rw [hsth]; rfl
  by_cases hl : sth.velocity_history.length ≥ 3
  · rw [if_pos hl]
    set r := detect_kick atan2d sth inp.ball_pos inp.feet_positions
      inp.frame_number inp.timestamp fh with hr
    have hrk : r.1.kicks = st.kicks := by
      rw [hr, detect_kick_kicks_eq, hkicks]
    cases h2 : r.2 with
    | none =>
      constructor
      · intro _
        simp only [h2]
        exact hrk
      · intro k hk
        simp only [h2] at hk
        exact absurd hk (by simp)
    | some k' =>
      constructor
      · intro hn
        simp only [h2] at hn
        exact absurd hn (by simp)
      · intro k hk
        simp only [h2, Option.some.injEq] at hk
        simp only [h2]
        simp [hrk, hk]
  · rw [if_neg hl]
    exact ⟨fun _ => hkicks, fun k hk => by simp at hk⟩

/-- A frame step emits a Ground event only when the series flag was set
before the call, and it resets the flag. -/
theorem process_frame_ground_needs_series (atan2d : ℚ → ℚ → ℚ) (fh : ℚ)
    (st : DetectorState) (inp : FrameInput) (k : BallKick)
    (hk : (process_ball_frame atan2d fh st inp).2 = some k)
    (hg : k.kick_type = "ground") :
    st.in_juggling_series = true ∧
    (process_ball_frame atan2d fh st inp).1.in_juggling_series = false := by
  unfold process_ball_frame at hk ⊢
  set sth := update_histories st inp.ball_pos with hsth
  have hser : sth.in_juggling_series = st.in_juggling_series := by rw [hsth]; rfl
  by_cases hl : sth.velocity_history.length ≥ 3
  · rw [if_pos hl] at hk ⊢
    set r := detect_kick atan2d sth inp.ball_pos inp.feet_positions
      inp.frame_number inp.timestamp fh with hr
    cases h2 : r.2 with
    | none => simp [h2] at hk
    | some k' =>
      simp only [h2, Option.some.injEq] at hk
      have := detect_kick_ground_needs_series atan2d sth inp.ball_pos
        inp.feet_positions inp.frame_number inp.timestamp fh k
        (by rw [← hr, h2, hk]) hg
      rw [hser] at this
      refine ⟨this.1, ?_⟩
      have h3 : r.1.in_juggling_series = false := by rw [hr]; exact this.2
      simp [h2, h3]
  · rw [if_neg hl] at hk
    simp at hk

/-- The series flag becomes set only by a frame step that takes the up-kick
branch. -/
theorem process_frame_series_source (atan2d : ℚ → ℚ → ℚ) (fh : ℚ)
    (st : DetectorState) (inp : FrameInput)
    (h : (process_ball_frame atan2d fh st inp).1.in_juggling_series = true) :
    st.in_juggling_series = true ∨ up_branch_taken atan2d st inp = true := by
  unfold process_ball_frame at h
  unfold up_branch_taken
  set sth := update_histories st inp.ball_pos with hsth
  have hser : sth.in_juggling_series = st.in_juggling_series := by rw [hsth]; rfl
  by_cases hl : sth.velocity_history.length ≥ 3
  · rw [if_pos hl] at h
    set r := detect_kick atan2d sth inp.ball_pos inp.feet_positions
      inp.frame_number inp.timestamp fh with hr
    have h1 : r.1.in_juggling_series = true := by
      cases h2 : r.2 <;> simp [h2] at h <;> exact h
    rcases detect_kick_series_source atan2d sth inp.ball_pos
        inp.feet_positions inp.frame_number inp.timestamp fh (hr ▸ h1) with
      hprev | hcond
    · exact Or.inl (hser ▸ hprev)
    · exact Or.inr (by simp only [decide_eq_true_eq]; exact ⟨hl, hcond⟩)
  · rw [if_neg hl] at h
    exact Or.inl (hser ▸ h)

/-- With feet detected on the frame, an emitted kick is at least
`min_kick_interval` frames after the last recorded kick. -/
theorem process_frame_emission_separated (atan2d : ℚ → ℚ → ℚ) (fh : ℚ)
    (st : DetectorState) (inp : FrameInput) (k : BallKick)
    (hfp : inp.feet_positions ≠ [])
    (hk : (process_ball_frame atan2d fh st inp).2 = some k) :
    ∀ last, st.kicks.getLast? = some last →
      min_kick_interval ≤ k.frame_number - last.frame_number := by
  unfold process_ball_frame at hk
  set sth := update_histories st inp.ball_pos with hsth
  have hkicks : sth.kicks = st.kicks := by rw [hsth]; rfl
  by_cases hl : sth.velocity_history.length ≥ 3
  · rw [if_pos hl] at hk
    set r := detect_kick atan2d sth inp.ball_pos inp.feet_positions
      inp.frame_number inp.timestamp fh with hr
    cases h2 : r.2 with
    | none => simp [h2] at hk
    | some k' =>
      simp only [h2, Option.some.injEq] at hk
      have hd := detect_kick_emission_debounced atan2d sth inp.ball_pos
        inp.feet_positions inp.frame_number inp.timestamp fh k hfp
        (by rw [← hr, h2, hk])
      intro last hlast
      have : ¬ debounced sth inp.frame_number := hd.1
      unfold debounced at this
      rw [hkicks, hlast] at this
      simp only [not_lt] at this
      rw [hd.2]
      exact this
  · rw [if_neg hl] at hk
    simp at hk

/-! ## C1: Ground events and series openings -/

/-- The invariant behind `groundSound`: if the tracked flag `b` covers the
series flag of the current state, the remaining trace is sound. -/
theorem runTrace_groundSound_aux (atan2d : ℚ → ℚ → ℚ) (fh : ℚ)
    (inps : List FrameInput) :
    ∀ (st : DetectorState) (b : Bool),
      (st.in_juggling_series = true → b = true) →
      groundSound b (runTrace atan2d fh st inps) := by
  induction inps with
  | nil =>
    intro st b _
    simp only [runTrace, groundSound]
  | cons inp rest ih =>
    intro st b hb
    simp only [runTrace, groundSound]
    set r := process_ball_frame atan2d fh st inp with hr
    constructor
    · rintro ⟨k, hk, hkt⟩
      simp only at hk
      exact hb (process_frame_ground_needs_series atan2d fh st inp k
        (hr ▸ hk) hkt).1
    · by_cases hgr : emitsGround (up_branch_taken atan2d st inp, r.2)
      · rw [if_pos (by simpa using hgr)]
        apply ih r.1 false
        intro hser
        obtain ⟨k, hk, hkt⟩ := hgr
        simp only at hk
        have h2 := (process_frame_ground_needs_series atan2d fh st inp k
          (hr ▸ hk) hkt).2
        rw [← hr] at h2
        rw [hser] at h2
        exact absurd h2 (by simp)
      · rw [if_neg (by simpa using hgr)]
        apply ih r.1 (b || up_branch_taken atan2d st inp)
        intro hser
        rcases process_frame_series_source atan2d fh st inp (hr ▸ hser) with
          h | h
        · simp [hb h]
        · simp [h]

/-- C1 (corrected): on every detector run, each emitted Ground event is
preceded — since the last Ground event, or the start of the run — by a call
that took the up-kick branch (passing the feet, debounce and motion tests and
setting `in_juggling_series`).  That call, however, emits an Up event only
when its confidence also clears the threshold, so the prior Up *event* the
original claim requires need not exist (see the counterexample). -/
theorem ground_event_needs_motion_pass (atan2d : ℚ → ℚ → ℚ) (fh : ℚ)
    (inps : List FrameInput) :
    groundSound false (runTrace atan2d fh initDetectorState inps) :=
  runTrace_groundSound_aux atan2d fh inps initDetectorState false
    (fun h => absurd h (by simp [initDetectorState]))

/-! ## C2: the debounce interval -/

/-- Frame separation relation between consecutive emitted kicks. -/
def KickSep (a b : BallKick) : Prop :=
  min_kick_interval ≤ b.frame_number - a.frame_number

instance : IsTrans BallKick KickSep :=
  ⟨fun _ _ _ h1 h2 => by
    unfold KickSep min_kick_interval at h1 h2 ⊢
    omega⟩

/-- Chain preservation: with feet on every frame, folding the loop keeps the
kick list consecutively separated by the debounce interval. -/
theorem runDetector_chain_aux (atan2d : ℚ → ℚ → ℚ) (fh : ℚ)
    (inps : List FrameInput) (hfeet : ∀ inp ∈ inps, inp.feet_positions ≠ []) :
    ∀ st : DetectorState, List.Chain' KickSep st.kicks →
      List.Chain' KickSep
        ((inps.foldl
          (fun s inp => (process_ball_frame atan2d fh s inp).1) st).kicks) := by
  induction inps with
  | nil => intro st hst; exact hst
  | cons inp rest ih =>
    intro st hst
    rw [List.foldl_cons]
    apply ih (fun i hi => hfeet i (List.mem_cons_of_mem inp hi))
    cases h2 : (process_ball_frame atan2d fh st inp).2 with
    | none =>
      rw [(process_frame_kicks atan2d fh st inp).1 h2]
      exact hst
    | some k =>
      rw [(process_frame_kicks atan2d fh st inp).2 k h2]
      apply List.chain'_append.mpr
      refine ⟨hst, List.chain'_singleton k, ?_⟩
      intro x hx y hy
      simp only [List.head?_cons, Option.mem_def, Option.some.injEq] at hy
      subst hy
      exact process_frame_emission_separated atan2d fh st inp k
        (hfeet inp (List.mem_cons_self inp rest)) h2 x hx

/-- C2 (corrected): when every frame of the run carries at least one detected
foot, no two emitted kick events (of any kind) lie closer than
`min_kick_interval` frames.  Without that restriction the claim fails: the
debounce guard sits inside the feet-proximity branch, so a Ground event on a
frame with no detected feet escapes it (see the counterexample). -/
theorem kicks_pairwise_separated (atan2d : ℚ → ℚ → ℚ) (fh : ℚ)
    (inps : List FrameInput)
    (hfeet : ∀ inp ∈ inps, inp.feet_positions ≠ []) :
    ((runDetector atan2d fh inps).kicks).Pairwise KickSep := by
  have h := runDetector_chain_aux atan2d fh inps hfeet initDetectorState
    (by simp [initDetectorState])
  rw [List.chain'_iff_pairwise] at h
  exact h

/-! ## C9: state mutation with no emitted event -/

/-- C9 (confirmed): when the feet condition, debounce and motion test all
pass but the computed confidence stays below `min_confidence_threshold`,
`detect_kick` returns no event yet has already set `in_juggling_series` and
bumped `current_series_kicks` (resetting it first when no series was open):
the detector enters an active series without any Up event being emitted. -/
theorem silent_series_entry (atan2d : ℚ → ℚ → ℚ) (st : DetectorState)
    (bp : ℚ × ℚ) (fp : List (ℚ × ℚ)) (fn : ℤ) (ts fh : ℚ)
    (hfeet : near_feet bp fp ∨ fp ≠ [])
    (hdeb : ¬ debounced st fn)
    (hmotion : calculate_trajectory_change atan2d st.velocity_history >
        trajectory_change_threshold ∧
      |(calculate_ball_velocity st.ball_history).2| > velocity_threshold ∧
      (calculate_ball_velocity st.ball_history).2 < 0)
    (hconf : up_confidence (calculate_trajectory_change atan2d st.velocity_history)
        (calculate_ball_velocity st.ball_history).2
        (decide (near_feet bp fp)) < min_confidence_threshold) :
    detect_kick atan2d st bp fp fn ts fh =
      ({ st with in_juggling_series := true,
                 current_series_kicks :=
                   (if st.in_juggling_series then st.current_series_kicks
                    else 0) + 1 }, none) := by
  unfold detect_kick
  rw [if_pos hfeet, if_neg hdeb, if_pos hmotion,
    if_neg (not_le.mpr hconf)]
  obtain ⟨bh, vh, ks, cs, js, lbp⟩ := st
  cases js <;> simp

/-! ## C3: behaviour at trajectory change 30°, velocity -10, distance 350 -/

/-- C3 (corrected): with trajectory change 30°, vertical velocity -10 and
nearest-foot distance 350 px (inside the 400 px threshold), the up-kick
confidence is `(0.4*(30/45) + 0.4*(10/20) + 0.2*1.0)*1.0 = 2/3 ≈ 0.6667` —
not 0.4667 as the claim computes — which clears the 0.6 threshold, so
`detect_kick` emits an Up event of confidence `2/3` (the debounce interval
having elapsed). -/
theorem up_event_emitted_at_30_degrees (atan2d : ℚ → ℚ → ℚ)
    (st : DetectorState) (bp : ℚ × ℚ) (fp : List (ℚ × ℚ)) (fn : ℤ) (ts fh : ℚ)
    (htc : calculate_trajectory_change atan2d st.velocity_history = 30)
    (hvy : (calculate_ball_velocity st.ball_history).2 = -10)
    (hdist : min_distance_sq bp fp = some (350 ^ 2))
    (hdeb : ¬ debounced st fn) :
    detect_kick atan2d st bp fp fn ts fh =
      ({ st with in_juggling_series := true,
                 current_series_kicks :=
                   (if st.in_juggling_series then st.current_series_kicks
                    else 0) + 1 },
       some { frame_number := fn, timestamp := ts, ball_position := bp,
              kick_type := "up", confidence := 2/3 }) := by
  have hnear : near_feet bp fp := by
    unfold near_feet
    rw [hdist]
    norm_num [kick_distance_threshold]
  have hconf : up_confidence (calculate_trajectory_change atan2d
      st.velocity_history) (calculate_ball_velocity st.ball_history).2
      (decide (near_feet bp fp)) = 2/3 := by
    rw [htc, hvy, decide_eq_true hnear]
    unfold up_confidence
    norm_num [min_def]
  unfold detect_kick
  rw [if_pos (Or.inl hnear), if_neg hdeb,
    if_pos (by
      rw [htc, hvy]
      norm_num [trajectory_change_threshold, velocity_threshold]),
    hconf, if_pos (by norm_num [min_confidence_threshold])]
  obtain ⟨bh, vh, ks, cs, js, lbp⟩ := st
  cases js <;> simp

/-! ## Concrete counterexample runs and witnesses -/

/-- Counterexample to C1 as stated: on the run `c1trace` the detector emits a
single Ground event (at frame 16) although no Up event was ever emitted —
frame 12 passed the motion test and opened the series, but its confidence
0.476 < 0.6 suppressed the Up event. -/
theorem ground_without_up_counterexample :
    (runDetector atan2dW 1000 c1trace).kicks.map BallKick.kick_type =
      [("ground")] := by
  norm_num [runDetector, c1trace, process_ball_frame, update_histories,
    push_bounded, calculate_ball_velocity, detect_kick, ground_check,
    near_feet, min_distance_sq, distSq, debounced, calculate_trajectory_change,
    atan2dW, up_confidence, initDetectorState, is_ball_near_ground,
    kick_distance_threshold, velocity_threshold, min_kick_interval,
    ground_threshold, trajectory_change_threshold, velocity_history_size,
    min_confidence_threshold, min_def]

/-- Counterexample to C2 as stated: on the run `c2trace` the detector emits
an Up event at frame 12 and a Ground event at frame 16, only 4 frames — less
than `min_kick_interval = 8` — apart (frame 16 carries no detected feet, so
the debounce guard is never consulted). -/
theorem kick_interval_counterexample :
    (runDetector atan2dW 1000 c2trace).kicks.map
      (fun k => (k.frame_number, k.kick_type)) =
      [(12, ("up")), (16, ("ground"))] ∧
    ¬ ((16 : ℤ) - 12 ≥ min_kick_interval) := by
  constructor
  · norm_num [runDetector, c2trace, process_ball_frame, update_histories,
      push_bounded, calculate_ball_velocity, detect_kick, ground_check,
      near_feet, min_distance_sq, distSq, debounced,
      calculate_trajectory_change, atan2dW, up_confidence, initDetectorState,
      is_ball_near_ground, kick_distance_threshold, velocity_threshold,
      min_kick_interval, ground_threshold, trajectory_change_threshold,
      velocity_history_size, min_confidence_threshold, min_def]
  · norm_num [min_kick_interval]

/-- Witness for C2's amended statement on a concrete one-frame run whose only
frame carries a detected foot. -/
theorem kicks_pairwise_separated_witness :
    ((runDetector atan2dW 1000 [⟨(0, 0), [(1, 1)], 0, 0⟩]).kicks).Pairwise
      KickSep :=
  kicks_pairwise_separated atan2dW 1000 [⟨(0, 0), [(1, 1)], 0, 0⟩]
    (by
      intro inp hinp
      simp only [List.mem_singleton] at hinp
      rw [hinp]
      simp)

/-- Counterexample to C3 as stated: the confidence expression the claim
writes down evaluates to `2/3`, not 0.4667; it is not below the 0.6
threshold; and on a state whose computed trajectory change is 30° with
velocity `(1, -10)` and a foot 350 px away, `detect_kick` emits an Up event
of confidence `2/3` instead of no event. -/
theorem confidence_gate_counterexample :
    up_confidence 30 (-10) true = 2/3 ∧
    ¬ (up_confidence 30 (-10) true < min_confidence_threshold) ∧
    (detect_kick atan2dC3 stC3 (1, 0) [(351, 0)] 12 0 1000).2 =
      some ⟨12, 0, (1, 0), ("up"), 2/3⟩ := by
  refine ⟨?_, ?_, ?_⟩
  · norm_num [up_confidence, min_def]
  · norm_num [up_confidence, min_def, min_confidence_threshold]
  · norm_num [detect_kick, ground_check, near_feet, min_distance_sq, distSq,
      debounced, calculate_trajectory_change, calculate_ball_velocity,
      atan2dC3, stC3, up_confidence, is_ball_near_ground,
      kick_distance_threshold, velocity_threshold, min_kick_interval,
      ground_threshold, trajectory_change_threshold,
      min_confidence_threshold, min_def]

/-- Witness for C3's amended statement at the concrete state `stC3`. -/
theorem up_event_emitted_at_30_degrees_witness :
    detect_kick atan2dC3 stC3 (1, 0) [(351, 0)] 12 0 1000 =
      ({ stC3 with in_juggling_series := true, current_series_kicks := 1 },
       some ⟨12, 0, (1, 0), ("up"), 2/3⟩) := by
  have h := up_event_emitted_at_30_degrees atan2dC3 stC3 (1, 0) [(351, 0)]
    12 0 1000
    (by norm_num [calculate_trajectory_change, stC3, atan2dC3])
    (by norm_num [calculate_ball_velocity, stC3])
    (by norm_num [min_distance_sq, distSq])
    (by norm_num [debounced, stC3])
  rw [h]
  norm_num [stC3]

/-- Witness for C9 at a concrete state: the motion test passes (trajectory
change 45°, velocity `(9, -9)`), the only foot is 500 px away, the confidence
is `(0.4 + 0.18 + 0.1) * 0.7 = 0.476 < 0.6`, and the call returns no event
while opening the series. -/
theorem silent_series_entry_witness : detect_kick atan2dW
    ⟨[(140, 100), (149, 91)], [(0, 0), (20, 0), (9, -9)], [], 0, false, none⟩
    (149, 91) [(649, 91)] 12 12 1000 =
    (⟨[(140, 100), (149, 91)], [(0, 0), (20, 0), (9, -9)], [], 1, true, none⟩,
      none) := by
  have h := silent_series_entry atan2dW
    ⟨[(140, 100), (149, 91)], [(0, 0), (20, 0), (9, -9)], [], 0, false, none⟩
    (149, 91) [(649, 91)] 12 12 1000
    (by norm_num [near_feet, min_distance_sq, distSq, kick_distance_threshold])
    (by norm_num [debounced])
    (by norm_num [calculate_trajectory_change, calculate_ball_velocity,
      atan2dW, trajectory_change_threshold, velocity_threshold])
    (by norm_num [up_confidence, calculate_trajectory_change,
      calculate_ball_velocity, atan2dW, near_feet, min_distance_sq, distSq,
      kick_distance_threshold, min_confidence_threshold, min_def])
  rw [h]
  norm_num

/-! ## C10: resets and the stale ball position -/

/-- C10 (confirmed): `analyze_video` resets `ball_history`,
`velocity_history`, `kicks`, `current_series_kicks` and `in_juggling_series`
at the start of a run but leaves `last_ball_position` untouched; hence on a
later run, a first frame whose ball lies within `ball_movement_threshold` of
the previous video's final ball position is silently skipped (the run's state
is as if the frame were absent), while with no stored position the same frame
is processed into the history. -/
theorem analyze_video_reset_and_stale_skip :
    (∀ (atan2d : ℚ → ℚ → ℚ) (st0 : DetectorState) (fh fps : ℚ),
      analyze_video atan2d st0 [] fh fps =
        { st0 with ball_history := [], velocity_history := [], kicks := [],
                   current_series_kicks := 0, in_juggling_series := false }) ∧
    (∀ (atan2d : ℚ → ℚ → ℚ) (st0 : DetectorState) (fh fps : ℚ)
      (q p : ℚ × ℚ) (feet : List (ℚ × ℚ)),
      st0.last_ball_position = some p →
      distSq q p < ball_movement_threshold ^ 2 →
      analyze_video atan2d st0 [⟨some q, feet⟩] fh fps =
        analyze_video atan2d st0 [] fh fps) ∧
    (∀ (atan2d : ℚ → ℚ → ℚ) (st0 : DetectorState) (fh fps : ℚ)
      (q : ℚ × ℚ) (feet : List (ℚ × ℚ)),
      st0.last_ball_position = none →
      (analyze_video atan2d st0 [⟨some q, feet⟩] fh fps).ball_history =
        [q]) := by
  refine ⟨?_, ?_, ?_⟩
  · intro atan2d st0 fh fps
    rfl
  · intro atan2d st0 fh fps q p feet hp hmove
    unfold analyze_video analyze_frame_step
    norm_num [List.enum, List.enumFrom, frame_skip, hp]
    intro hcontra
    exact absurd hmove (not_lt.mpr hcontra)
  · intro atan2d st0 fh fps q feet hn
    unfold analyze_video analyze_frame_step
    norm_num [List.enum, List.enumFrom, frame_skip, hn,
      process_ball_frame, update_histories, push_bounded,
      calculate_ball_velocity, velocity_history_size]

/-- Witness for C10 at concrete states: a stale position `(0, 0)` suppresses
the first frame at `(3, 4)` (25 < 100), and the same frame is processed when
no position is stored. -/
theorem analyze_video_reset_witness :
    analyze_video atan2dW ⟨[], [], [], 0, false, some (0, 0)⟩
        [⟨some (3, 4), []⟩] 1000 30 =
      analyze_video atan2dW ⟨[], [], [], 0, false, some (0, 0)⟩ [] 1000 30 ∧
    (analyze_video atan2dW ⟨[], [], [], 0, false, none⟩
        [⟨some (3, 4), []⟩] 1000 30).ball_history = [(3, 4)] :=
  ⟨analyze_video_reset_and_stale_skip.2.1 atan2dW
      ⟨[], [], [], 0, false, some (0, 0)⟩ 1000 30 (3, 4) (0, 0) [] rfl
      (by norm_num [distSq, ball_movement_threshold]),
   analyze_video_reset_and_stale_skip.2.2 atan2dW
      ⟨[], [], [], 0, false, none⟩ 1000 30 (3, 4) [] rfl⟩

end BallMaster
